import Mathlib

/-!
Verification development for the privy fraud-detection core.

The definitions below are shallow embeddings of the Python source:
  * `tokensLua`, `runCalls` — the token-bucket script `TOKENS_LUA` and
    `RateLimiter.allow_request` from `app/services/rate_limiter.py`.
    Redis executes the Lua script atomically, so any interleaving of
    concurrent `allow_request` calls on one key is a sequential
    composition of script executions; we model one execution as a pure
    state transformer on the per-key bucket state.  Lua numbers are
    modelled as rationals, absent Redis keys as `none`.
  * scoring definitions — `compute_score` and its helpers from
    `app/services/scoring.py`, with Python `re` patterns embedded as
    regular-expression ASTs matched by Brzozowski derivatives
    (`re.match` = match some prefix of the string).  Character classes
    are the ASCII readings of `[a-z]`, `\d`, `\w`.
  * `checkPipeline` / `collectHits` — the control flow of the
    `/v1/check` endpoint in `app/api/routes.py`; Python exceptions are
    modelled as `Option`/`Except` values, and a `try/except Exception`
    block as a handler that absorbs every error value (FastAPI's
    `HTTPException` subclasses `Exception`, so it too is absorbed).
-/

namespace Privy

/-! ## Rate limiter (`app/services/rate_limiter.py`) -/

/-- Per-key state held in Redis: values of `rl:{key}:tokens` and
`rl:{key}:ts`; `none` models an absent key. -/
structure BucketState where
  tokens : Option ℚ
  last : Option ℤ
  deriving DecidableEq, Repr

/-- A key never seen before: both Redis keys absent. -/
def BucketState.fresh : BucketState := ⟨none, none⟩

/-- One atomic execution of `TOKENS_LUA`: read tokens (default
`capacity`) and last timestamp (default 0), refill by
`max 0 (now - last) * rate` capped at `capacity`, then consume one token
if at least one is available.  Returns the allow decision and the
persisted state. -/
def tokensLua (rate capacity : ℚ) (now : ℤ) (s : BucketState) : Bool × BucketState :=
  let tokens0 := s.tokens.getD capacity
  let last := s.last.getD 0
  let delta : ℤ := max 0 (now - last)
  let add : ℚ := (delta : ℚ) * rate
  let tokens1 := min capacity (tokens0 + add)
  if tokens1 < 1 then
    (false, ⟨some tokens1, some now⟩)
  else
    (true, ⟨some (tokens1 - 1), some now⟩)

/-- `n` consecutive `allow_request` calls at clock value `now`,
returning the list of allow decisions and the final state.  Because the
Lua script runs atomically in Redis, `n` concurrent calls with the same
arguments execute as exactly this sequence. -/
def runCalls (rate capacity : ℚ) (now : ℤ) : ℕ → BucketState → List Bool × BucketState
  | 0, s => ([], s)
  | n + 1, s =>
    let r := tokensLua rate capacity now s
    let rest := runCalls rate capacity now n r.2
    (r.1 :: rest.1, rest.2)

/-- Number of admitted calls among `n` calls at clock `now`. -/
def countAllowed (rate capacity : ℚ) (now : ℤ) (n : ℕ) (s : BucketState) : ℕ :=
  ((runCalls rate capacity now n s).1.count true)

/-! ## Risk scorer (`app/services/scoring.py`)

Python regular expressions are embedded as ASTs and matched with
Brzozowski derivatives; `Re.matchStart` is `re.match` (match anywhere at
the start of the string, the suffix being unconstrained).  Character
classes are the ASCII readings of `[a-z]`, `\d`, `\w` and Python string
methods `lower` / `isdigit` are modelled on ASCII characters. -/

/-- Regular-expression ASTs for the entries of `SUSPICIOUS_PATTERNS`. -/
inductive Re where
  | fail : Re
  | eps : Re
  | cls : (Char → Bool) → Re
  | cat : Re → Re → Re
  | alt : Re → Re → Re
  | star : Re → Re

/-- Does `r` accept the empty string? -/
def Re.nullable : Re → Bool
  | .fail => false
  | .eps => true
  | .cls _ => false
  | .cat a b => a.nullable && b.nullable
  | .alt a b => a.nullable || b.nullable
  | .star _ => true

/-- Brzozowski derivative of `r` by the character `c`. -/
def Re.deriv : Re → Char → Re
  | .fail, _ => .fail
  | .eps, _ => .fail
  | .cls p, c => if p c then .eps else .fail
  | .cat a b, c =>
    if a.nullable then .alt (.cat (a.deriv c) b) (b.deriv c)
    else .cat (a.deriv c) b
  | .alt a b, c => .alt (a.deriv c) (b.deriv c)
  | .star a, c => .cat (a.deriv c) (.star a)

/-- Python `re.match(r, s)` truthiness: some prefix of `s` matches `r`. -/
def Re.matchStart (r : Re) : List Char → Bool
  | [] => r.nullable
  | c :: cs => r.nullable || (r.deriv c).matchStart cs

/-- Literal single character. -/
def Re.chr (c : Char) : Re := .cls (fun x => x == c)

/-- Literal string. -/
def Re.lit (s : String) : Re := s.data.foldr (fun c r => .cat (.chr c) r) .eps

/-- `r+`. -/
def Re.plus (r : Re) : Re := .cat r (.star r)

/-- `r{n}`: exactly `n` copies. -/
def Re.rep (r : Re) : ℕ → Re
  | 0 => .eps
  | n + 1 => .cat r (Re.rep r n)

/-- `r{n,}`. -/
def Re.atLeast (r : Re) (n : ℕ) : Re := .cat (r.rep n) (.star r)

/-- `r{0,n}`. -/
def Re.upTo (r : Re) : ℕ → Re
  | 0 => .eps
  | n + 1 => .alt .eps (.cat r (Re.upTo r n))

/-- Python `\w` (ASCII): letters, digits, underscore. -/
def wordChar (c : Char) : Bool := c.isAlpha || c.isDigit || c == '_'

/-- The class `[._-]`. -/
def sepChar (c : Char) : Bool := c == '.' || c == '_' || c == '-'

/-- `[a-z]`. -/
def lowerCls : Re := .cls Char.isLower

/-- `\d`. -/
def digitCls : Re := .cls Char.isDigit

/-- `\w`. -/
def wordCls : Re := .cls wordChar

/-- `^[a-z]+\d{4,}@` — username followed by 4+ digits. -/
def pat1 : Re := .cat lowerCls.plus (.cat (digitCls.atLeast 4) (Re.chr '@'))

/-- `^\w{1,3}\d{3,}@` — 1-3 chars + 3+ digits. -/
def pat2 : Re :=
  .cat (.cat wordCls (wordCls.upTo 2)) (.cat (digitCls.atLeast 3) (Re.chr '@'))

/-- `^[a-z]+[._-][a-z]+\d+@` — firstname.lastname123 pattern. -/
def pat3 : Re :=
  .cat lowerCls.plus (.cat (.cls sepChar) (.cat lowerCls.plus (.cat digitCls.plus (Re.chr '@'))))

/-- `^\d+[a-z]*@` — starting with numbers. -/
def pat4 : Re := .cat digitCls.plus (.cat (.star lowerCls) (Re.chr '@'))

/-- `^[a-z]*test[a-z]*\d*@` — contains 'test'. -/
def pat5 : Re :=
  .cat (.star lowerCls)
    (.cat (Re.lit "test") (.cat (.star lowerCls) (.cat (.star digitCls) (Re.chr '@'))))

/-- `^temp[a-z]*\d*@` — contains 'temp'. -/
def pat6 : Re :=
  .cat (Re.lit "temp") (.cat (.star lowerCls) (.cat (.star digitCls) (Re.chr '@')))

/-- `^fake[a-z]*\d*@` — contains 'fake'. -/
def pat7 : Re :=
  .cat (Re.lit "fake") (.cat (.star lowerCls) (.cat (.star digitCls) (Re.chr '@')))

/-- The fixed ordered pattern list `SUSPICIOUS_PATTERNS`. -/
def SUSPICIOUS_PATTERNS : List Re := [pat1, pat2, pat3, pat4, pat5, pat6, pat7]

/-- The `WEIGHTS` dict, as an association list (keys are distinct). -/
def WEIGHTS : List (String × ℕ) :=
  [("disposable_email", 70), ("vpn_ip", 45), ("tor_exit", 85), ("bad_isp", 35),
   ("high_risk_country", 25), ("multiple_from_ip", 30), ("custom_blacklist", 100),
   ("suspicious_email_pattern", 40), ("new_domain", 20), ("free_email", 10)]

/-- `WEIGHTS.get(tag, 0)`. -/
def weight (tag : String) : ℕ := (WEIGHTS.lookup tag).getD 0

/-- The `FREE_EMAIL_PROVIDERS` set. -/
def FREE_EMAIL_PROVIDERS : List String :=
  ["gmail.com", "yahoo.com", "hotmail.com", "outlook.com", "aol.com", "icloud.com",
   "protonmail.com", "yandex.com", "mail.com", "zoho.com", "tutanota.com"]

/-- `s.lower()` (ASCII case fold). -/
def lowerStr (s : List Char) : List Char := s.map Char.toLower

/-- `s.split(sep, 1)`: the piece before the first separator and
everything after it. -/
def splitFirst (sep : Char) (s : List Char) : List Char × List Char :=
  (s.takeWhile (fun c => !(c == sep)), (s.dropWhile (fun c => !(c == sep))).drop 1)

/-- The `for pattern in SUSPICIOUS_PATTERNS` loop of
`_analyze_email_patterns`: on the first matching pattern, add the weight
once, append the reason once and `break`. -/
def suspiciousLoop (lowered : List Char) : List Re → ℕ × List String
  | [] => (0, [])
  | p :: ps =>
    if p.matchStart lowered then
      (weight "suspicious_email_pattern", ["suspicious_email_pattern"])
    else suspiciousLoop lowered ps

/-- `_analyze_email_patterns`: free-provider membership, suspicious
patterns (first match wins), short/long local part, digit count. -/
def _analyze_email_patterns (email : List Char) : ℕ × List String :=
  if email.isEmpty || !(email.contains '@') then (0, [])
  else
    let lowered := lowerStr email
    let lp := (splitFirst '@' lowered).1
    let dom := (splitFirst '@' lowered).2
    let s1 := if String.mk dom ∈ FREE_EMAIL_PROVIDERS then
        (weight "free_email", ["free_email"]) else ((0 : ℕ), ([] : List String))
    let s2 := suspiciousLoop lowered SUSPICIOUS_PATTERNS
    let s3 := if lp.length ≤ 2 then ((15 : ℕ), ["short_email_local"])
      else ((0 : ℕ), ([] : List String))
    let s4 := if 30 ≤ lp.length then ((10 : ℕ), ["long_email_local"])
      else ((0 : ℕ), ([] : List String))
    let s5 := if 5 ≤ lp.countP (fun c => c.isDigit) then
        ((20 : ℕ), ["excessive_numbers_email"]) else ((0 : ℕ), ([] : List String))
    (s1.1 + s2.1 + s3.1 + s4.1 + s5.1, s1.2 ++ s2.2 ++ s3.2 ++ s4.2 ++ s5.2)

/-- The ASCII whitespace characters Python `int` ignores around a
numeral: TAB through CR (0x09–0x0D) and space.  (Unlike `str.strip`,
`int` does not treat the separators 0x1C–0x1F as whitespace.) -/
def pyWhitespace (c : Char) : Bool :=
  (9 ≤ c.toNat && c.toNat ≤ 13) || c.toNat == 32

/-- Strip leading and trailing whitespace, as `int` does before
parsing. -/
def stripWs (s : List Char) : List Char :=
  ((s.dropWhile pyWhitespace).reverse.dropWhile pyWhitespace).reverse

/-- No two adjacent underscores anywhere in the character list. -/
def noDoubleUnderscore : List Char → Bool
  | [] => true
  | [_] => true
  | c1 :: c2 :: rest => !(c1 == '_' && c2 == '_') && noDoubleUnderscore (c2 :: rest)

/-- The digit body Python `int` accepts after the optional sign:
nonempty, only decimal digits and underscores, starting and ending with
a digit, and never two underscores in a row — i.e. single underscores
allowed only between digits (`"1_0"` parses, `"_1"`, `"1_"` and
`"1__0"` raise). -/
def validUnderscoreDigits (s : List Char) : Bool :=
  !s.isEmpty && s.all (fun c => c.isDigit || c == '_') &&
    (match s.head? with | some c => c.isDigit | none => false) &&
    (match s.getLast? with | some c => c.isDigit | none => false) &&
    noDoubleUnderscore s

/-- Value of a digit body accepted by `int` (underscores removed),
`none` when `int` would reject it. -/
def parseDigits (s : List Char) : Option ℕ :=
  if validUnderscoreDigits s then
    some ((s.filter (fun c => !(c == '_'))).foldl
      (fun a c => a * 10 + (c.toNat - '0'.toNat)) 0)
  else none

/-- Python `int(x)` in base 10 on ASCII text, as applied to a field of
`ip.split('.')`: strip surrounding whitespace, then an optional sign
directly followed by decimal digits with single underscore separators;
`none` models the `ValueError` raise.  On ASCII strings this is exactly
`int`; its non-ASCII acceptances (Unicode decimal digits and Unicode
whitespace such as NBSP) are outside the model, which is why theorems
over this definition restrict the address to ASCII characters. -/
def parseIntPy (s : List Char) : Option ℤ :=
  match stripWs s with
  | '+' :: rest => (parseDigits rest).map (fun n => (n : ℤ))
  | '-' :: rest => (parseDigits rest).map (fun n => -(n : ℤ))
  | t => (parseDigits t).map (fun n => (n : ℤ))

/-- Parse every field left to right, `none` on the first failure (the
comprehension raises `ValueError` at the first bad field). -/
def parseAll : List (List Char) → Option (List ℤ)
  | [] => some []
  | f :: fs =>
    match parseIntPy f, parseAll fs with
    | some v, some vs => some (v :: vs)
    | _, _ => none

/-- `[int(x) for x in ip.split('.')]`; `none` models the `ValueError`
caught by `_is_private_ip` / `_is_suspicious_ip_range`. -/
def ipParts (ip : List Char) : Option (List ℤ) :=
  parseAll (ip.splitOn '.')

/-- `_is_private_ip`: 10/8, 172.16/12, 192.168/16, 127/8; `False` on
`ValueError` or when the split is not 4 fields. -/
def _is_private_ip (ip : List Char) : Bool :=
  match ipParts ip with
  | none => false
  | some parts =>
    if parts.length ≠ 4 then false
    else
      match parts with
      | [a, b, _, _] =>
        a == 10 || (a == 172 && decide (16 ≤ b) && decide (b ≤ 31)) ||
          (a == 192 && b == 168) || a == 127
      | _ => false

/-- `_is_suspicious_ip_range`: the three hard-coded /24 prefixes;
`False` on `ValueError` or when the split is not 4 fields. -/
def _is_suspicious_ip_range (ip : List Char) : Bool :=
  match ipParts ip with
  | none => false
  | some parts =>
    if parts.length ≠ 4 then false
    else
      match parts with
      | [a, b, c, _] =>
        (a == 185 && b == 220 && c == 101) || (a == 198 && b == 7 && c == 58) ||
          (a == 185 && b == 216 && c == 35)
      | _ => false

/-- `_analyze_ip_patterns`. -/
def _analyze_ip_patterns (ip : List Char) : ℕ × List String :=
  if ip.isEmpty then (0, [])
  else
    let p1 := if _is_private_ip ip then ((50 : ℕ), ["private_ip"])
      else ((0 : ℕ), ([] : List String))
    let p2 := if _is_suspicious_ip_range ip then ((25 : ℕ), ["suspicious_ip_range"])
      else ((0 : ℕ), ([] : List String))
    (p1.1 + p2.1, p1.2 ++ p2.2)

/-- Python truthiness of an optional string (`None` and `""` are falsy). -/
def truthy : Option String → Bool
  | none => false
  | some s => !s.isEmpty

/-- The risk-level threshold chain at the end of `compute_score`. -/
def riskLevel (score : ℕ) : String :=
  if 80 ≤ score then "high"
  else if 60 ≤ score then "medium"
  else if 30 ≤ score then "low"
  else "none"

/-- `compute_score(hits, email, ip)` returning `(score, level, reasons)`. -/
def compute_score (hits : List String) (email ip : Option String) : ℕ × String × List String :=
  let base := hits.foldl (fun a h => a + weight h) 0
  let es := if truthy email then _analyze_email_patterns (email.getD "").data
    else ((0 : ℕ), ([] : List String))
  let ips := if truthy ip then _analyze_ip_patterns (ip.getD "").data
    else ((0 : ℕ), ([] : List String))
  let score := min (base + es.1 + ips.1) 100
  (score, riskLevel score, hits ++ es.2 ++ ips.2)

/-- The dict returned by `get_action_recommendations`. -/
structure ActionRec where
  action : String
  message : String
  recommendations : List String
  deriving DecidableEq, Repr

/-- `get_action_recommendations(score)`. -/
def get_action_recommendations (score : ℕ) : ActionRec :=
  if 80 ≤ score then
    ⟨"block", "High fraud risk detected. Registration blocked.",
      ["Block registration immediately", "Log details for investigation",
       "Consider IP/email blocking", "Manual review if legitimate user"]⟩
  else if 60 ≤ score then
    ⟨"challenge", "Medium fraud risk detected. Additional verification required.",
      ["Require CAPTCHA verification", "Send email verification link",
       "Enable 2FA requirement", "Monitor subsequent actions"]⟩
  else if 30 ≤ score then
    ⟨"monitor", "Low fraud risk detected. Monitor user behavior.",
      ["Allow registration with monitoring", "Track user behavior patterns",
       "Flag for review if suspicious activity", "Consider velocity limits"]⟩
  else
    ⟨"allow", "Low fraud risk. Safe to proceed.",
      ["Allow normal registration flow", "Standard monitoring applies"]⟩

/-! ## Check endpoint control flow (`app/api/routes.py`)

Python exceptions are modelled as values: an indicator lookup that may
raise returns `Option` (`none` = raised), and the step-1 `try` block
returns `Except PyExn Unit`.  The handler `except Exception: print(...)`
absorbs every `PyExn`, including FastAPI's `HTTPException`, which
subclasses `Exception`. -/

/-- An exception raised inside the step-1 `try` block of `check`. -/
inductive PyExn where
  | httpExn (status : ℕ)
  | genericExn
  deriving DecidableEq, Repr

/-- Outcome of `rate_limiter.allow_request`: a decision, or a raised
exception (shared store unreachable). -/
inductive LimiterOutcome where
  | decision (allowed : Bool)
  | transportError
  deriving DecidableEq, Repr, Fintype

/-- The body of the step-1 `try` block: on a deny decision `check`
raises `HTTPException(429)`; a transport failure surfaces as a generic
exception; otherwise the block returns normally. -/
def rateLimitBody : LimiterOutcome → Except PyExn Unit
  | .decision false => .error (.httpExn 429)
  | .decision true => .ok ()
  | .transportError => .error .genericExn

/-- Step 1 of `check` as written: the `try` block wrapped in
`except Exception as e: print(...)`.  The result is the exception (an
HTTP status) that propagates out of step 1, if any. -/
def rateLimitStage (hasLimiter : Bool) (o : LimiterOutcome) : Except ℕ Unit :=
  if hasLimiter then
    match rateLimitBody o with
    | .error _ => .ok ()
    | .ok _ => .ok ()
  else .ok ()

/-- Results of the individual indicator lookups issued by `check`;
`none` models a lookup that raises, `some b` a lookup returning
membership `b`.  `geo` is the single `enhanced_ip_check` call with its
two derived flags (is_high_risk_country, is_hosting_provider). -/
structure SourceOutcomes where
  disposable : Option Bool
  vpn : Option Bool
  tor : Option Bool
  geo : Option (Bool × Bool)
  blIp : Option Bool
  blEmail : Option Bool
  deriving DecidableEq, Repr

/-- The `payload.ip` checks inside the step-2 Redis `try` block: VPN
membership then Tor membership, aborting the block (keeping earlier
appends) on a raised lookup. -/
def redisIpChecks (hits : List String) (hasIp : Bool) (src : SourceOutcomes) : List String :=
  if hasIp then
    match src.vpn with
    | none => hits
    | some v =>
      let hits := if v then hits ++ ["vpn_ip"] else hits
      match src.tor with
      | none => hits
      | some t => if t then hits ++ ["tor_exit"] else hits
  else hits

/-- Step 2 of `check`: the single `try` block holding the
disposable-email, VPN and Tor lookups (`if redis:` guard outside). -/
def redisBlockStep (hits : List String) (redisUp hasEmail hasIp : Bool)
    (src : SourceOutcomes) : List String :=
  if redisUp then
    if hasEmail then
      match src.disposable with
      | none => hits
      | some d =>
        let hits := if d then hits ++ ["disposable_email"] else hits
        redisIpChecks hits hasIp src
    else redisIpChecks hits hasIp src
  else hits

/-- Step 2.5 of `check`: the geolocation `try` block (one call, two
flags appended after it returns). -/
def geoBlockStep (hits : List String) (hasIp : Bool) (src : SourceOutcomes) : List String :=
  if hasIp then
    match src.geo with
    | none => hits
    | some g =>
      let hits := if g.1 then hits ++ ["high_risk_country"] else hits
      if g.2 then hits ++ ["bad_isp"] else hits
  else hits

/-- The `payload.email` domain-blacklist check inside the step-3 `try`
block. -/
def blacklistEmailCheck (hits : List String) (hasEmail : Bool) (src : SourceOutcomes) : List String :=
  if hasEmail then
    match src.blEmail with
    | none => hits
    | some b => if b then hits ++ ["custom_blacklist"] else hits
  else hits

/-- Step 3 of `check`: the organization-blacklist `try` block (IP
blacklist then email-domain blacklist). -/
def blacklistBlockStep (hits : List String) (hasOrg hasIp hasEmail : Bool)
    (src : SourceOutcomes) : List String :=
  if hasOrg then
    if hasIp then
      match src.blIp with
      | none => hits
      | some b =>
        let hits := if b then hits ++ ["custom_blacklist"] else hits
        blacklistEmailCheck hits hasEmail src
    else blacklistEmailCheck hits hasEmail src
  else hits

/-- Steps 2–3 of `check`: the single `hits` list threaded through the
three `try` blocks in order.  Total by construction: no lookup failure
can make it raise. -/
def collectHits (redisUp hasEmail hasIp hasOrg : Bool) (src : SourceOutcomes) : List String :=
  blacklistBlockStep
    (geoBlockStep
      (redisBlockStep [] redisUp hasEmail hasIp src) hasIp src)
    hasOrg hasIp hasEmail src

/-- The observable outcome of one `check` request: the HTTP status, a
flag recording whether the scoring stage ran, and the assembled result
fields. -/
structure CheckResult where
  status : ℕ
  scored : Bool
  risk_score : ℕ
  risk_level : String
  reasons : List String
  action : String
  deriving DecidableEq, Repr

/-- The request payload fields used by the pipeline (`None` or `""` are
falsy). -/
structure CheckIn where
  ip : Option String
  email : Option String
  deriving DecidableEq, Repr

/-- The `check` endpoint control flow: step 1 (rate limiting) followed —
whenever no exception propagates — by signal aggregation, scoring and
result assembly. -/
def checkPipeline (hasLimiter : Bool) (lim : LimiterOutcome) (redisUp hasOrg : Bool)
    (src : SourceOutcomes) (payload : CheckIn) : CheckResult :=
  match rateLimitStage hasLimiter lim with
  | .error s => ⟨s, false, 0, "", [], ""⟩
  | .ok _ =>
    let hits := collectHits redisUp (truthy payload.email) (truthy payload.ip) hasOrg src
    let r := compute_score hits payload.email payload.ip
    ⟨200, true, r.1, r.2.1, r.2.2, (get_action_recommendations r.1).action⟩

theorem tokensLua_sameNow (rate : ℚ) (K : ℕ) (now : ℤ) (r : ℕ) (hr : r ≤ K) :
    tokensLua rate (K : ℚ) now ⟨some (r : ℚ), some now⟩ =
      if r = 0 then (false, ⟨some ((0 : ℕ) : ℚ), some now⟩)
      else (true, ⟨some ((r - 1 : ℕ) : ℚ), some now⟩) := by
  have hmin : min (K : ℚ) ((r : ℚ) + ((0 : ℤ) : ℚ) * rate) = (r : ℚ) := by
    push_cast
    rw [zero_mul, add_zero, min_eq_right]
    exact_mod_cast hr
  unfold tokensLua
  simp only [Option.getD_some, sub_self, max_self, hmin]
  rcases Nat.eq_zero_or_pos r with h0 | hpos
  · subst h0
    norm_num
  · have h1 : ¬ ((r : ℚ) < 1) := by
      exact not_lt.mpr (by exact_mod_cast hpos)
    have hne : r ≠ 0 := Nat.pos_iff_ne_zero.mp hpos
    simp only [if_neg h1, if_neg hne]
    congr 2
    push_cast [Nat.cast_sub hpos]
    ring_nf

theorem runCalls_sameNow (rate : ℚ) (K : ℕ) (now : ℤ) (N : ℕ) :
    ∀ r : ℕ, r ≤ K →
      runCalls rate (K : ℚ) now N ⟨some (r : ℚ), some now⟩ =
        (List.replicate (min N r) true ++ List.replicate (N - r) false,
          ⟨some ((r - N : ℕ) : ℚ), some now⟩) := by
  induction N with
  | zero =>
    intro r hr
    simp [runCalls]
  | succ n ih =>
    intro r hr
    match r with
    | 0 =>
      have hstep := tokensLua_sameNow rate K now 0 hr
      norm_num at hstep
      have ih0 := ih 0 hr
      norm_num at ih0
      simp only [runCalls, hstep, Nat.cast_zero, ih0]
      simp [List.replicate_succ]
    | r' + 1 =>
      have hstep := tokensLua_sameNow rate K now (r' + 1) hr
      rw [if_neg (Nat.succ_ne_zero r'), Nat.add_sub_cancel] at hstep
      have hr' : r' ≤ K := le_trans (Nat.le_succ r') hr
      simp only [runCalls, hstep, ih r' hr']
      rw [Nat.succ_sub_succ, Nat.succ_min_succ, List.replicate_succ, List.cons_append,
        Nat.succ_sub_succ]

theorem tokensLua_fresh (rate : ℚ) (K : ℕ) (now : ℤ)
    (hrate : 0 ≤ rate) :
    tokensLua rate (K : ℚ) now BucketState.fresh =
      if K = 0 then (false, ⟨some ((0 : ℕ) : ℚ), some now⟩)
      else (true, ⟨some ((K - 1 : ℕ) : ℚ), some now⟩) := by
  have hadd : (0 : ℚ) ≤ ((max 0 (now - 0) : ℤ) : ℚ) * rate := by
    apply mul_nonneg _ hrate
    exact_mod_cast le_max_left 0 (now - 0)
  have hmin : min (K : ℚ) ((K : ℚ) + ((max 0 (now - 0) : ℤ) : ℚ) * rate) = (K : ℚ) :=
    min_eq_left (le_add_of_nonneg_right hadd)
  unfold tokensLua BucketState.fresh
  simp only [Option.getD_none, hmin]
  rcases Nat.eq_zero_or_pos K with h0 | hpos
  · subst h0
    norm_num
  · have h1 : ¬ ((K : ℚ) < 1) := by
      exact not_lt.mpr (by exact_mod_cast hpos)
    have hne : K ≠ 0 := Nat.pos_iff_ne_zero.mp hpos
    simp only [if_neg h1, if_neg hne]
    congr 2
    push_cast [Nat.cast_sub hpos]
    ring_nf

/-- C2: with the refill-and-consume update running as one indivisible
operation per key (Redis evaluates `TOKENS_LUA` atomically, so any
interleaving of concurrent calls is a sequential composition of script
executions), `N` concurrent `allow_request` calls against the same fresh
key with capacity `K` admit exactly `min N K` of them — no lost update,
no double decrement, no over-admission. -/
theorem rate_limiter_concurrent_min_admitted (rate : ℚ) (K N : ℕ) (now : ℤ)
    (hrate : 0 ≤ rate) :
    countAllowed rate (K : ℚ) now N BucketState.fresh = min N K := by
  cases N with
  | zero => simp [countAllowed, runCalls]
  | succ n =>
    have hfresh := tokensLua_fresh rate K now hrate
    rcases Nat.eq_zero_or_pos K with h0 | hpos
    · subst h0
      norm_num at hfresh
      have h2 := runCalls_sameNow rate 0 now n 0 (le_refl 0)
      norm_num at h2
      simp [countAllowed, runCalls, hfresh, h2, List.count_replicate]
    · have hne : K ≠ 0 := Nat.pos_iff_ne_zero.mp hpos
      rw [if_neg hne] at hfresh
      have h2 := runCalls_sameNow rate K now n (K - 1) (Nat.sub_le K 1)
      simp only [countAllowed, runCalls, hfresh, h2]
      simp [List.count_replicate]
      omega

/-- Witness for `rate_limiter_concurrent_min_admitted` at rate 2,
capacity 3, 5 concurrent calls: exactly 3 are admitted. -/
theorem rate_limiter_concurrent_min_admitted_witness :
    (0 : ℚ) ≤ 2 ∧ countAllowed 2 ((3 : ℕ) : ℚ) 7 5 BucketState.fresh = min 5 3 :=
  ⟨by norm_num, rate_limiter_concurrent_min_admitted 2 3 5 7 (by norm_num)⟩

/-- C3: with `rate = 1.0`, `capacity = 60`, a fresh key and a fixed clock
value `t0`, the first 60 calls all allow and the 61st denies; after the
clock advances by 2 seconds, exactly 2 further calls allow before the
next deny. -/
theorem rate_limiter_burst_then_refill (t0 : ℤ) :
    (runCalls 1 ((60 : ℕ) : ℚ) t0 61 BucketState.fresh).1 =
      List.replicate 60 true ++ [false] ∧
    (runCalls 1 ((60 : ℕ) : ℚ) (t0 + 2) 3
        (runCalls 1 ((60 : ℕ) : ℚ) t0 61 BucketState.fresh).2).1 =
      [true, true, false] := by
  have hfresh := tokensLua_fresh 1 60 t0 (by norm_num)
  rw [if_neg (by norm_num : (60 : ℕ) ≠ 0)] at hfresh
  have h2 := runCalls_sameNow 1 60 t0 60 59 (by norm_num)
  norm_num at h2
  have h61 : runCalls 1 ((60 : ℕ) : ℚ) t0 61 BucketState.fresh =
      (List.replicate 60 true ++ [false], ⟨some ((0 : ℕ) : ℚ), some t0⟩) := by
    have : (61 : ℕ) = 60 + 1 := rfl
    rw [this, runCalls, hfresh]
    norm_num [h2]
    decide
  rw [h61]
  refine ⟨rfl, ?_⟩
  have hd : max (0 : ℤ) (t0 + 2 - t0) = 2 := by omega
  have h3 : tokensLua 1 ((60 : ℕ) : ℚ) (t0 + 2) ⟨some ((0 : ℕ) : ℚ), some t0⟩ =
      (true, ⟨some ((1 : ℕ) : ℚ), some (t0 + 2)⟩) := by
    unfold tokensLua
    simp only [Option.getD_some, hd]
    norm_num
  have h4 := runCalls_sameNow 1 60 (t0 + 2) 2 1 (by norm_num)
  norm_num at h4
  have : (3 : ℕ) = 2 + 1 := rfl
  rw [this, runCalls, h3]
  norm_num [h4]

/-- C4: the score is capped at 100 for every input, and the empty hit
list with no email and no ip scores 0 with level "none" and no reasons. -/
theorem compute_score_bounded_and_zero_on_empty :
    (∀ (hits : List String) (email ip : Option String),
      (compute_score hits email ip).1 ≤ 100) ∧
    compute_score [] none none = (0, "none", []) := by
  refine ⟨fun hits email ip => ?_, by decide⟩
  exact min_le_right _ _

/-- C8: the level mapping in `compute_score` and the
action/message/recommendation mapping in `get_action_recommendations`
agree on the thresholds 80/60/30 for every score in [0,100], with the
message and recommendation list fixed per band. -/
theorem level_action_same_thresholds :
    ∀ s : ℕ, s ≤ 100 →
      (80 ≤ s → riskLevel s = "high" ∧ get_action_recommendations s =
        ⟨"block", "High fraud risk detected. Registration blocked.",
         ["Block registration immediately", "Log details for investigation",
          "Consider IP/email blocking", "Manual review if legitimate user"]⟩) ∧
      (60 ≤ s ∧ s < 80 → riskLevel s = "medium" ∧ get_action_recommendations s =
        ⟨"challenge", "Medium fraud risk detected. Additional verification required.",
         ["Require CAPTCHA verification", "Send email verification link",
          "Enable 2FA requirement", "Monitor subsequent actions"]⟩) ∧
      (30 ≤ s ∧ s < 60 → riskLevel s = "low" ∧ get_action_recommendations s =
        ⟨"monitor", "Low fraud risk detected. Monitor user behavior.",
         ["Allow registration with monitoring", "Track user behavior patterns",
          "Flag for review if suspicious activity", "Consider velocity limits"]⟩) ∧
      (s < 30 → riskLevel s = "none" ∧ get_action_recommendations s =
        ⟨"allow", "Low fraud risk. Safe to proceed.",
         ["Allow normal registration flow", "Standard monitoring applies"]⟩) := by
  decide

/-- Witness for `level_action_same_thresholds` at score 85. -/
theorem level_action_same_thresholds_witness :
    (85 : ℕ) ≤ 100 ∧
      ((80 ≤ 85 → riskLevel 85 = "high" ∧ get_action_recommendations 85 =
        ⟨"block", "High fraud risk detected. Registration blocked.",
         ["Block registration immediately", "Log details for investigation",
          "Consider IP/email blocking", "Manual review if legitimate user"]⟩) ∧
      (60 ≤ 85 ∧ 85 < 80 → riskLevel 85 = "medium" ∧ get_action_recommendations 85 =
        ⟨"challenge", "Medium fraud risk detected. Additional verification required.",
         ["Require CAPTCHA verification", "Send email verification link",
          "Enable 2FA requirement", "Monitor subsequent actions"]⟩) ∧
      (30 ≤ 85 ∧ 85 < 60 → riskLevel 85 = "low" ∧ get_action_recommendations 85 =
        ⟨"monitor", "Low fraud risk detected. Monitor user behavior.",
         ["Allow registration with monitoring", "Track user behavior patterns",
          "Flag for review if suspicious activity", "Consider velocity limits"]⟩) ∧
      (85 < 30 → riskLevel 85 = "none" ∧ get_action_recommendations 85 =
        ⟨"allow", "Low fraud risk. Safe to proceed.",
         ["Allow normal registration flow", "Standard monitoring applies"]⟩)) :=
  ⟨by decide, level_action_same_thresholds 85 (by decide)⟩

/-- C9: fixed scoring examples — custom_blacklist scores 100/high/block,
multiple_from_ip scores 30/low, vpn_ip scores its weight 45 with level
"low" (consistent with the 30/60 thresholds), and a tag absent from
`WEIGHTS` contributes weight 0 yet still appears in the reasons. -/
theorem score_fixed_examples :
    compute_score ["custom_blacklist"] none none = (100, "high", ["custom_blacklist"]) ∧
    (get_action_recommendations 100).action = "block" ∧
    compute_score ["multiple_from_ip"] none none = (30, "low", ["multiple_from_ip"]) ∧
    compute_score ["vpn_ip"] none none = (45, "low", ["vpn_ip"]) ∧
    weight "vpn_ip" = 45 ∧ riskLevel 45 = "low" ∧
    (∀ t : String, WEIGHTS.lookup t = none →
      weight t = 0 ∧ compute_score [t] none none = (0, "none", [t])) := by
  refine ⟨by decide, by decide, by decide, by decide, by decide, by decide, ?_⟩
  intro t ht
  have hw : weight t = 0 := by simp [weight, ht]
  refine ⟨hw, ?_⟩
  simp [compute_score, hw, truthy, riskLevel]

/-- Witness for `score_fixed_examples`: the unknown tag "zzz". -/
theorem score_fixed_examples_witness :
    WEIGHTS.lookup "zzz" = none ∧
      (weight "zzz" = 0 ∧ compute_score ["zzz"] none none = (0, "none", ["zzz"])) :=
  ⟨by decide, score_fixed_examples.2.2.2.2.2.2 "zzz" (by decide)⟩

theorem parseAll_some_shape :
    ∀ (fs : List (List Char)) (vs : List ℤ), parseAll fs = some vs →
      vs.length = fs.length ∧ ∀ f ∈ fs, (parseIntPy f).isSome := by
  intro fs
  induction fs with
  | nil =>
    intro vs h
    simp [parseAll] at h
    subst h
    simp
  | cons f t ih =>
    intro vs h
    unfold parseAll at h
    cases hf : parseIntPy f with
    | none => rw [hf] at h; simp at h
    | some v =>
      rw [hf] at h
      cases ht : parseAll t with
      | none => rw [ht] at h; simp at h
      | some vt =>
        rw [ht] at h
        simp at h
        obtain ⟨hl, hall⟩ := ih vt ht
        subst h
        refine ⟨by simp [hl], ?_⟩
        intro x hx
        rcases List.mem_cons.mp hx with hx | hx
        · subst hx; simp [hf]
        · exact hall x hx

/-- C10: for an ASCII address string, whenever `ip` does not split on
'.' into exactly four fields parseable by `int` (with its whitespace,
sign and underscore rules), the `ValueError`/length guards make both IP
predicates false and the IP analysis contributes no score and no
reasons; the analysis is a total function, so it never raises.  The
ASCII restriction is the domain on which `parseIntPy` is exactly
Python `int`; `int`'s acceptance of Unicode digits is not modelled. -/
theorem ip_analysis_zero_on_bad_shape (ip : List Char)
    (_hascii : ∀ c ∈ ip, c.toNat ≤ 127)
    (h : ¬ ((ip.splitOn '.').length = 4 ∧
      ∀ f ∈ ip.splitOn '.', (parseIntPy f).isSome)) :
    _is_private_ip ip = false ∧ _is_suspicious_ip_range ip = false ∧
      _analyze_ip_patterns ip = (0, []) := by
  have hparts : ∀ parts, ipParts ip = some parts → parts.length ≠ 4 := by
    intro parts hp
    obtain ⟨hl, hall⟩ := parseAll_some_shape _ _ hp
    intro he
    exact h ⟨by rw [← hl, he], hall⟩
  have hpriv : _is_private_ip ip = false := by
    unfold _is_private_ip
    cases hp : ipParts ip with
    | none => rfl
    | some parts => simp [hparts parts hp]
  have hsusp : _is_suspicious_ip_range ip = false := by
    unfold _is_suspicious_ip_range
    cases hp : ipParts ip with
    | none => rfl
    | some parts => simp [hparts parts hp]
  refine ⟨hpriv, hsusp, ?_⟩
  unfold _analyze_ip_patterns
  rw [hpriv, hsusp]
  split <;> simp

/-- Witness for `ip_analysis_zero_on_bad_shape` at the three-field
string "1.2.3". -/
theorem ip_analysis_zero_on_bad_shape_witness :
    (∀ c ∈ "1.2.3".data, c.toNat ≤ 127) ∧
    ¬ ((("1.2.3".data).splitOn '.').length = 4 ∧
      ∀ f ∈ ("1.2.3".data).splitOn '.', (parseIntPy f).isSome) ∧
    (_is_private_ip "1.2.3".data = false ∧
      _is_suspicious_ip_range "1.2.3".data = false ∧
      _analyze_ip_patterns "1.2.3".data = (0, [])) :=
  ⟨by decide, by decide,
    ip_analysis_zero_on_bad_shape "1.2.3".data (by decide) (by decide)⟩

theorem suspiciousLoop_reasons_sub (lowered : List Char) :
    ∀ ps : List Re, (suspiciousLoop lowered ps).2.Sublist ["suspicious_email_pattern"] := by
  intro ps
  induction ps with
  | nil => simp [suspiciousLoop]
  | cons p pt ih =>
    unfold suspiciousLoop
    split
    · exact List.Sublist.refl _
    · exact ih

theorem suspiciousLoop_first_match (lowered : List Char) :
    ∀ ps : List Re, ps.any (fun p => p.matchStart lowered) = true →
      suspiciousLoop lowered ps =
        (weight "suspicious_email_pattern", ["suspicious_email_pattern"]) := by
  intro ps
  induction ps with
  | nil => intro h; simp at h
  | cons p pt ih =>
    intro h
    unfold suspiciousLoop
    by_cases hp : p.matchStart lowered = true
    · simp [hp]
    · have hpt : pt.any (fun q => q.matchStart lowered) = true := by
        simp only [List.any_cons, Bool.or_eq_true] at h
        rcases h with h | h
        · exact absurd h hp
        · exact h
      simp [hp, ih hpt]

theorem email_reasons_sub (email : List Char) :
    (_analyze_email_patterns email).2.Sublist
      ["free_email", "suspicious_email_pattern", "short_email_local",
       "long_email_local", "excessive_numbers_email"] := by
  unfold _analyze_email_patterns
  split
  · simp
  · show List.Sublist _
      ((((["free_email"] ++ ["suspicious_email_pattern"]) ++ ["short_email_local"]) ++
        ["long_email_local"]) ++ ["excessive_numbers_email"])
    refine List.Sublist.append (List.Sublist.append (List.Sublist.append
      (List.Sublist.append ?_ ?_) ?_) ?_) ?_
    · split
      · exact List.Sublist.refl _
      · exact List.nil_sublist _
    · exact suspiciousLoop_reasons_sub _ _
    · split
      · exact List.Sublist.refl _
      · exact List.nil_sublist _
    · split
      · exact List.Sublist.refl _
      · exact List.nil_sublist _
    · split
      · exact List.Sublist.refl _
      · exact List.nil_sublist _

theorem ip_reasons_sub (ip : List Char) :
    (_analyze_ip_patterns ip).2.Sublist ["private_ip", "suspicious_ip_range"] := by
  unfold _analyze_ip_patterns
  split
  · simp
  · show List.Sublist _ (["private_ip"] ++ ["suspicious_ip_range"])
    refine List.Sublist.append ?_ ?_
    · split
      · exact List.Sublist.refl _
      · exact List.nil_sublist _
    · split
      · exact List.Sublist.refl _
      · exact List.nil_sublist _

/-- C5: `compute_score` is deterministic — identical `(hits, email, ip)`
give identical results — and the reasons list is exactly the original
hits in input order followed by the derived tags, which occur (each at
most once) in the fixed order free_email, suspicious_email_pattern,
short_email_local, long_email_local, excessive_numbers_email,
private_ip, suspicious_ip_range. -/
theorem compute_score_deterministic_and_ordered
    (hits hits' : List String) (email email' ip ip' : Option String)
    (h1 : hits = hits') (h2 : email = email') (h3 : ip = ip') :
    compute_score hits email ip = compute_score hits' email' ip' ∧
    ∃ t : List String,
      (compute_score hits email ip).2.2 = hits ++ t ∧
      t.Sublist ["free_email", "suspicious_email_pattern", "short_email_local",
        "long_email_local", "excessive_numbers_email", "private_ip",
        "suspicious_ip_range"] := by
  subst h1; subst h2; subst h3
  refine ⟨rfl, ?_⟩
  refine ⟨(if truthy email then _analyze_email_patterns (email.getD "").data
      else ((0 : ℕ), ([] : List String))).2 ++
    (if truthy ip then _analyze_ip_patterns (ip.getD "").data
      else ((0 : ℕ), ([] : List String))).2, ?_, ?_⟩
  · simp [compute_score]
  · show List.Sublist _
      (["free_email", "suspicious_email_pattern", "short_email_local",
        "long_email_local", "excessive_numbers_email"] ++
       ["private_ip", "suspicious_ip_range"])
    refine List.Sublist.append ?_ ?_
    · split
      · exact email_reasons_sub _
      · exact List.nil_sublist _
    · split
      · exact ip_reasons_sub _
      · exact List.nil_sublist _

/-- Witness for `compute_score_deterministic_and_ordered` on a concrete
input. -/
theorem compute_score_deterministic_and_ordered_witness :
    (["vpn_ip"] : List String) = ["vpn_ip"] ∧
    (some "a1@gmail.com" : Option String) = some "a1@gmail.com" ∧
    (some "10.0.0.5" : Option String) = some "10.0.0.5" ∧
    (compute_score ["vpn_ip"] (some "a1@gmail.com") (some "10.0.0.5") =
        compute_score ["vpn_ip"] (some "a1@gmail.com") (some "10.0.0.5") ∧
      ∃ t : List String,
        (compute_score ["vpn_ip"] (some "a1@gmail.com") (some "10.0.0.5")).2.2 =
          ["vpn_ip"] ++ t ∧
        t.Sublist ["free_email", "suspicious_email_pattern", "short_email_local",
          "long_email_local", "excessive_numbers_email", "private_ip",
          "suspicious_ip_range"]) :=
  ⟨rfl, rfl, rfl,
    compute_score_deterministic_and_ordered ["vpn_ip"] ["vpn_ip"]
      (some "a1@gmail.com") (some "a1@gmail.com")
      (some "10.0.0.5") (some "10.0.0.5") rfl rfl rfl⟩

/-- C6: for an email containing "@" whose lower-cased form matches at
least one suspicious pattern, the pattern loop contributes the weight of
"suspicious_email_pattern" exactly once and appends the tag exactly once
(first match wins), and the tag occurs exactly once in the reasons
returned by the email analysis. -/
theorem suspicious_pattern_once (email : List Char)
    (hat : email.contains '@' = true)
    (hmatch : SUSPICIOUS_PATTERNS.any
      (fun p => p.matchStart (lowerStr email)) = true) :
    suspiciousLoop (lowerStr email) SUSPICIOUS_PATTERNS =
      (weight "suspicious_email_pattern", ["suspicious_email_pattern"]) ∧
    (_analyze_email_patterns email).2.count "suspicious_email_pattern" = 1 := by
  have hloop := suspiciousLoop_first_match (lowerStr email) SUSPICIOUS_PATTERNS hmatch
  refine ⟨hloop, ?_⟩
  have hne : email.isEmpty = false := by
    cases email with
    | nil => simp at hat
    | cons _ _ => rfl
  have hcond : ¬ ((email.isEmpty || !(email.contains '@')) = true) := by
    rw [hne, hat]
    simp
  unfold _analyze_email_patterns
  rw [if_neg hcond]
  simp only [hloop]
  split <;> split <;> split <;> split <;> decide

/-- Witness for `suspicious_pattern_once` at "test12345@x.com", which
matches more than one suspicious pattern. -/
theorem suspicious_pattern_once_witness :
    "test12345@x.com".data.contains '@' = true ∧
    SUSPICIOUS_PATTERNS.any
      (fun p => p.matchStart (lowerStr "test12345@x.com".data)) = true ∧
    (suspiciousLoop (lowerStr "test12345@x.com".data) SUSPICIOUS_PATTERNS =
        (weight "suspicious_email_pattern", ["suspicious_email_pattern"]) ∧
      (_analyze_email_patterns "test12345@x.com".data).2.count
        "suspicious_email_pattern" = 1) :=
  ⟨by decide, by decide, suspicious_pattern_once "test12345@x.com".data (by decide) (by decide)⟩

/-- C1 (code behaviour at the failing input): the `raise
HTTPException(429)` issued on a deny decision sits inside the same `try`
whose handler is the blanket `except Exception`, and `HTTPException`
subclasses `Exception`, so the deliberate 429 is swallowed: step 1 never
propagates any rejection, and a denied request is still aggregated,
scored and answered with status 200 — contradicting the specified
"reject with 429, do not run aggregator or scorer on deny". -/
theorem check_denied_request_still_scored :
    (∀ (hasLimiter : Bool) (o : LimiterOutcome),
      rateLimitStage hasLimiter o = .ok ()) ∧
    checkPipeline true (.decision false) true false
      ⟨some false, some true, some false, some (false, false), some false, some false⟩
      ⟨some "8.8.8.8", none⟩ =
      ⟨200, true, 45, "low", ["vpn_ip"], "monitor"⟩ := by
  refine ⟨?_, by decide⟩
  intro hasLimiter o
  cases hasLimiter
  · rfl
  · cases o with
    | decision b => cases b <;> rfl
    | transportError => rfl

/-- C7 counterexample: when the disposable-email lookup raises, the VPN
and Tor lookups of the same `try` block are skipped, so their hits are
lost — with the identical sources succeeding on the first lookup, the
aggregation returns the vpn/tor hits, but with only the disposable
lookup failing it returns nothing, not "the hits contributed by every
other source". -/
theorem collect_sibling_hits_lost_on_failure :
    collectHits true true true false
      ⟨none, some true, some true, some (false, false), some false, some false⟩ = [] ∧
    collectHits true true true false
      ⟨some false, some true, some true, some (false, false), some false, some false⟩ =
      ["vpn_ip", "tor_exit"] ∧
    "vpn_ip" ∉ collectHits true true true false
      ⟨none, some true, some true, some (false, false), some false, some false⟩ := by
  decide

/-- C7 amended: failure isolation holds per `try` block, not per source —
the aggregation never raises (it is a total function) and always returns
the concatenation of the three blocks' contributions, so a lookup
failure inside one block leaves every other block's hits intact (it can
only suppress the remaining hits of its own block). -/
theorem collect_blockwise_isolation (redisUp hasEmail hasIp hasOrg : Bool)
    (src : SourceOutcomes) :
    collectHits redisUp hasEmail hasIp hasOrg src =
      redisBlockStep [] redisUp hasEmail hasIp src ++
      geoBlockStep [] hasIp src ++
      blacklistBlockStep [] hasOrg hasIp hasEmail src := by
  obtain ⟨d, v, t, g, bi, be⟩ := src
  revert redisUp hasEmail hasIp hasOrg
  revert d v t g bi be
  decide

example : _analyze_email_patterns "a1@gmail.com".data = (25, ["free_email", "short_email_local"]) := by decide

example : _analyze_email_patterns "test12345@x.com".data = (60, ["suspicious_email_pattern", "excessive_numbers_email"]) := by decide

example : _is_private_ip "10.0.0.5".data = true := by decide

example : _analyze_ip_patterns "8.8.8.8".data = (0, []) := by decide

example : parseIntPy " 0".data = some 0 := by decide

example : parseIntPy "1_0".data = some 10 := by decide

example : parseIntPy " -1_0 ".data = some (-10) := by decide

example : parseIntPy "_1".data = none := by decide

example : parseIntPy "1_".data = none := by decide

example : parseIntPy "1__0".data = none := by decide

example : parseIntPy "+".data = none := by decide

example : parseIntPy "1 0".data = none := by decide

example : _is_private_ip "10. 0.0.1".data = true := by decide

example : _analyze_ip_patterns "10. 0.0.1".data = (50, ["private_ip"]) := by decide

end Privy
